import Mathlib

/-
Verification of the equilibrium-guard policy engine.

Shallow embedding of the core sources:
  src/src/constraint.py  (constraint model, validator)
  src/src/anchor.py      (smart anchor: risk budget, trust score, drift)
  src/src/guard.py       (mode policy)

Modelling conventions:
  * Python floats are modelled as exact rationals (ℚ).  Every numeric claim
    settled here is insensitive to that choice (clamping at 0/1 absorbs the
    float error in the scenarios treated).
  * datetime values are modelled as rational timestamps in seconds; the
    current time is passed explicitly where the source calls datetime.now().
  * Python dicts that the source mutates are modelled as insertion-ordered
    association lists (Python dicts preserve insertion order; assignment to
    an existing key keeps its position).
  * A Python set(...) has unspecified iteration order; we fix the order to
    first occurrence.  No theorem below depends on the order of a set with
    more than one element.
  * Raising an exception is modelled by Option/Except: a function that can
    raise returns none / .error at exactly the raising inputs.
  * Numeric string formatting (Python f-strings with :.2f etc.) is modelled
    by ratStr; only the surrounding literal text is inspected by the claims.
-/

namespace EqGuard

/-! ## Generic helpers -/

/-- ASCII lower-casing of a character (models Python str.lower on ASCII). -/
def lowerChar (c : Char) : Char :=
  if 65 ≤ c.toNat ∧ c.toNat ≤ 90 then Char.ofNat (c.toNat + 32) else c

/-- Lower-case a string (models Python str.lower; kernel-reducible). -/
def strLower (s : String) : String := ⟨s.data.map lowerChar⟩

/-- Decidable list-prefix test. -/
def listPrefixOf : List Char → List Char → Bool
  | [], _ => true
  | _ :: _, [] => false
  | a :: as, b :: bs => a == b && listPrefixOf as bs

/-- Decidable list-infix test: does `pat` occur contiguously in `s`? -/
def listInfixOf (pat s : List Char) : Bool :=
  match s with
  | [] => listPrefixOf pat []
  | _ :: rest => listPrefixOf pat s || listInfixOf pat rest

/-- Substring test: does `s` contain `pat`?  Models Python `pat in s`. -/
def containsSub (s pat : String) : Bool := listInfixOf pat.data s.data

/-- Does `s` contain any of the given substrings?  Models
`any(x in s for x in pats)`. -/
def containsAny (s : String) (pats : List String) : Bool :=
  pats.any (fun p => containsSub s p)

/-- Last `n` elements of a list (Python `l[-n:]` for `n ≤ len`). -/
def lastN (n : ℕ) (l : List α) : List α := l.drop (l.length - n)

/-- Lookup in an association list (Python `d.get(k)` / `d[k]`). -/
def dictGet (l : List (String × α)) (k : String) : Option α :=
  match l with
  | [] => none
  | (k0, v) :: rest => if k0 == k then some v else dictGet rest k

/-- Dict assignment `d[k] = v`: replaces in place if the key exists
(Python dicts keep the original position), else appends. -/
def assocSet (l : List (String × α)) (k : String) (v : α) : List (String × α) :=
  match l with
  | [] => [(k, v)]
  | (k0, v0) :: rest => if k0 == k then (k, v) :: rest else (k0, v0) :: assocSet rest k v

/-- `d.setdefault(k, []).append(x)` on a dict of lists. -/
def assocAppend (l : List (String × List String)) (k : String) (x : String) :
    List (String × List String) :=
  match l with
  | [] => [(k, [x])]
  | (k0, xs) :: rest =>
    if k0 == k then (k0, xs ++ [x]) :: rest else (k0, xs) :: assocAppend rest k x

/-- Deduplicate keeping the first occurrence (our fixed order for Python
`set(...)`, whose iteration order is unspecified). -/
def dedupFirst : List String → List String
  | [] => []
  | x :: rest => if rest.contains x then
      (if (dedupFirst rest).contains x then dedupFirst rest else x :: dedupFirst rest)
    else x :: dedupFirst rest

/-- Python string-option truthiness: `None` and `""` are falsy. -/
def pyTruthyOptStr : Option String → Bool
  | none => false
  | some s => !(s == "")

/-- Python `a or b` on optional strings (`None` and `""` are falsy;
the second operand is returned verbatim when the first is falsy). -/
def pyOrStr (a b : Option String) : Option String :=
  match a with
  | some s => if s == "" then b else some s
  | none => b

/-- Appending to a deque with a maxlen: FIFO eviction from the front. -/
def dequeAppend (maxlen : ℕ) (l : List α) (x : α) : List α :=
  let l2 := l ++ [x]
  if maxlen < l2.length then l2.drop (l2.length - maxlen) else l2

/-- Abstract rendering of a rational inside a message string.  The Python
source interpolates floats (`:.2f` etc.); the claims below only inspect the
literal words around the number, so the exact digits are irrelevant. -/
def ratStr (q : ℚ) : String := toString q.num ++ "/" ++ toString q.den

/-! ## Context (the open string-keyed operation-attribute map)

The source passes a `Dict[str, Any]`.  We model the keys the core reads
(spec §6 lists exactly these as the recognized keys); `Option` captures key
presence, and boolean keys model `context.get(k, False)`. -/

structure Context where
  risk_level : Option String := none
  is_external : Bool := false
  involves_phi : Bool := false
  is_destructive : Bool := false
  is_write : Bool := false
  path : Option String := none
  resource : Option String := none
  url : Option String := none
  operation : Option String := none

/-! ## constraint.py -/

/-- ConstraintSeverity (constraint.py lines 17-21). -/
inductive ConstraintSeverity where
  | ADVISORY
  | REQUIRED
  | MANDATORY
deriving DecidableEq, Repr

/-- ComplianceFramework (constraint.py lines 24-29). -/
inductive ComplianceFramework where
  | SOC2
  | HIPAA
  | CIS
  | INTERNAL
deriving DecidableEq, Repr

/-- ConstraintResult (constraint.py lines 69-76).  `evaluated_at` is the
timestamp passed for `datetime.now()`. -/
structure ConstraintResult where
  constraint_id : String
  satisfied : Bool
  severity : ConstraintSeverity
  message : Option String
  evaluated_at : ℚ
deriving DecidableEq, Repr

/-- Constraint (constraint.py lines 32-46).  The predicate may raise: we
model it as returning `.error msg` at the raising inputs. -/
structure Constraint where
  id : String
  name : String
  description : String
  check : Context → Except String Bool
  severity : ConstraintSeverity := .REQUIRED
  frameworks : List ComplianceFramework := []
  error_message : String := ""

/-- Constraint.evaluate (constraint.py lines 48-66): try/except around the
predicate; an exception becomes a not-satisfied result carrying
"Constraint evaluation error: " plus the exception text. -/
def Constraint.evaluate (c : Constraint) (ctx : Context) (now : ℚ) : ConstraintResult :=
  match c.check ctx with
  | .ok satisfied =>
    { constraint_id := c.id
      satisfied := satisfied
      severity := c.severity
      message := if satisfied then none
        else some (if c.error_message == "" then
          "Constraint \x27" ++ c.name ++ "\x27 not satisfied" else c.error_message)
      evaluated_at := now }
  | .error e =>
    { constraint_id := c.id
      satisfied := false
      severity := c.severity
      message := some ("Constraint evaluation error: " ++ e)
      evaluated_at := now }

/-- ValidationResult (constraint.py lines 79-91). -/
structure ValidationResult where
  operation : String
  results : List ConstraintResult
  override_justification : Option String := none
deriving DecidableEq, Repr

/-- mandatory_failures (constraint.py lines 93-96). -/
def ValidationResult.mandatory_failures (v : ValidationResult) : List ConstraintResult :=
  v.results.filter (fun r => !r.satisfied && r.severity == .MANDATORY)

/-- required_failures (constraint.py lines 98-101). -/
def ValidationResult.required_failures (v : ValidationResult) : List ConstraintResult :=
  v.results.filter (fun r => !r.satisfied && r.severity == .REQUIRED)

/-- advisory_failures (constraint.py lines 103-106). -/
def ValidationResult.advisory_failures (v : ValidationResult) : List ConstraintResult :=
  v.results.filter (fun r => !r.satisfied && r.severity == .ADVISORY)

/-- can_execute (constraint.py lines 108-125).  Note the Python truthiness:
`not self.override_justification` is true for `None` and for `""`. -/
def ValidationResult.can_execute (v : ValidationResult) : Bool :=
  if !v.mandatory_failures.isEmpty then false
  else if !v.required_failures.isEmpty && !pyTruthyOptStr v.override_justification then false
  else true

/-- The spec sentence for can_execute, taken verbatim from the claim:
"(no mandatory failures) ∧ (no required failures OR justification
present)" — with presence read as the justification field being set.
This definition follows the SPEC wording, for comparison against the
source-derived `ValidationResult.can_execute`. -/
def can_execute_spec (v : ValidationResult) : Bool :=
  v.mandatory_failures.isEmpty &&
    (v.required_failures.isEmpty || v.override_justification.isSome)

/-- ConstraintValidator (constraint.py lines 150-161). -/
structure ConstraintValidator where
  constraints : List (String × Constraint) := []
  operation_constraints : List (String × List String) := []
  history : List ValidationResult := []

def emptyValidator : ConstraintValidator := {}

/-- register (constraint.py lines 163-176).  `if operations:` is Python
truthiness: `None` and `[]` both take the global path.  Note the source
never removes previously registered scope entries for the same id. -/
def ConstraintValidator.register (cv : ConstraintValidator) (c : Constraint)
    (operations : Option (List String)) : ConstraintValidator :=
  let cs := assocSet cv.constraints c.id c
  let ops := operations.getD []
  if ops.isEmpty then { cv with constraints := cs }
  else
    { cv with
      constraints := cs
      operation_constraints := ops.foldl (fun m op => assocAppend m op c.id)
        cv.operation_constraints }

/-- get_applicable_constraints (constraint.py lines 178-193): a constraint
is global iff its id appears in no scope list; specific ids are the scope
list for the operation; the union is a Python set (order unspecified, we
keep first occurrence). -/
def ConstraintValidator.get_applicable_constraints (cv : ConstraintValidator)
    (operation : String) : List Constraint :=
  let allScoped := (cv.operation_constraints.map Prod.snd).flatten
  let global_ids := (cv.constraints.map Prod.fst).filter (fun cid => !allScoped.contains cid)
  let specific_ids := (dictGet cv.operation_constraints operation).getD []
  let all_ids := dedupFirst (global_ids ++ specific_ids)
  all_ids.filterMap (fun cid => dictGet cv.constraints cid)

/-- validate (constraint.py lines 195-217): evaluate every applicable
constraint, build the ValidationResult, append it to the history. -/
def ConstraintValidator.validate (cv : ConstraintValidator) (operation : String)
    (ctx : Context) (override_justification : Option String) (now : ℚ) :
    ValidationResult × ConstraintValidator :=
  let results := (cv.get_applicable_constraints operation).map (fun c => c.evaluate ctx now)
  let validation : ValidationResult :=
    { operation := operation, results := results,
      override_justification := override_justification }
  (validation, { cv with history := cv.history ++ [validation] })

/-! ## anchor.py -/

/-- TrustLevel.from_score (anchor.py lines 28-43): iterate the levels from
the highest value down, return the first whose threshold the score meets;
fall back to DISCONNECTED. -/
def trustLevelName (score : ℚ) : String :=
  if 0.95 ≤ score then "AUTONOMOUS"
  else if 0.8 ≤ score then "HIGH_TRUST"
  else if 0.6 ≤ score then "COLLABORATIVE"
  else if 0.4 ≤ score then "CAUTIOUS"
  else if 0.2 ≤ score then "MINIMAL"
  else "DISCONNECTED"

/-- RISK_COSTS (anchor.py lines 56-62). -/
def RISK_COSTS : List (String × ℚ) :=
  [("SAFE", 0), ("LOW", 0.05), ("MEDIUM", 0.15), ("HIGH", 0.4), ("CRITICAL", 1)]

/-- RISK_TRUST_THRESHOLDS (anchor.py lines 65-71). -/
def RISK_TRUST_THRESHOLDS : List (String × ℚ) :=
  [("SAFE", 0), ("LOW", 0.2), ("MEDIUM", 0.4), ("HIGH", 0.6), ("CRITICAL", 0.8)]

/-- OperationRecord (anchor.py lines 78-87); timestamps in seconds. -/
structure OperationRecord where
  operation : String
  risk : String
  timestamp : ℚ
  context_hash : String
  resource : Option String := none
  external : Bool := false
  warnings : ℕ := 0
deriving DecidableEq, Repr

/-- AnchorState (anchor.py lines 101-110). -/
structure AnchorState where
  risk_budget : ℚ := 1
  trust_score : ℚ := 0.7
  last_checkpoint : ℚ := 0
  last_human_interaction : ℚ := 0
  consecutive_clean_ops : ℕ := 0
  total_ops_since_checkpoint : ℕ := 0
  warnings_since_checkpoint : ℕ := 0
deriving DecidableEq, Repr

/-- PreCheckResult (anchor.py lines 129-137). -/
structure PreCheckResult where
  can_proceed : Bool
  reason : String
  risk_level : String
  budget_after : ℚ
  trust_level : String
  warnings : List String := []
deriving DecidableEq, Repr

/-- PostCheckResult (anchor.py lines 140-147). -/
structure PostCheckResult where
  valid : Bool
  trust_delta : ℚ
  budget_remaining : ℚ
  drift_detected : Option String := none
  recommendations : List String := []
deriving DecidableEq, Repr

/-- AnchorParams (anchor.py lines 653-673). -/
structure AnchorParams where
  trust_boost_clean : ℚ := 0.005
  trust_boost_streak : ℚ := 0.01
  trust_boost_interaction : ℚ := 0.05
  trust_boost_checkpoint : ℚ := 0.1
  trust_penalty_warning : ℚ := 0.02
  trust_penalty_violation : ℚ := 0.2
  max_minutes_without_human : ℚ := 60
  drift_window_size : ℕ := 20
  speed_threshold_per_minute : ℕ := 60
deriving DecidableEq, Repr

def defaultParams : AnchorParams := {}

/-- Risk-ordinal map used by escalating_access (anchor.py line 164). -/
def riskValues : List (String × ℕ) :=
  [("SAFE", 0), ("LOW", 1), ("MEDIUM", 2), ("HIGH", 3), ("CRITICAL", 4)]

/-- DriftDetector.escalating_access (anchor.py lines 157-171), window 10. -/
def escalating_access (history : List OperationRecord) : Bool :=
  if history.length < 10 then false
  else
    let recent := lastN 10 history
    let first_half := ((recent.take 5).map (fun op => (dictGet riskValues op.risk).getD 0)).sum
    let second_half := ((recent.drop 5).map (fun op => (dictGet riskValues op.risk).getD 0)).sum
    decide ((second_half : ℚ) > (first_half : ℚ) * 1.5)

/-- DriftDetector.external_drift (anchor.py lines 173-184), window 20. -/
def external_drift (history : List OperationRecord) : Bool :=
  if history.length < 20 then false
  else
    let recent := lastN 20 history
    let first_half := ((recent.take 10).filter (fun op => op.external)).length
    let second_half := ((recent.drop 10).filter (fun op => op.external)).length
    decide (second_half > max (first_half * 2) 3)

/-- DriftDetector.speed_drift (anchor.py lines 186-199), threshold 60/min.
The source indexes recent[0] and recent[-1]; the list has 10 elements
there, so the fallback branch of the match is unreachable. -/
def speed_drift (history : List OperationRecord) : Bool :=
  if history.length < 10 then false
  else
    let recent := lastN 10 history
    match recent.head?, recent.getLast? with
    | some first, some last =>
      let time_span := last.timestamp - first.timestamp
      if time_span ≤ 0 then true
      else decide (((recent.length : ℚ) / time_span) * 60 > 60)
    | _, _ => false

/-- DriftDetector.repetition_anomaly (anchor.py lines 201-218), threshold
10.  `if op.resource` is Python truthiness: None and "" are skipped. -/
def repetition_anomaly (history : List OperationRecord) : Bool :=
  if history.length < 10 then false
  else
    let recent := lastN 10 history
    let resources := recent.filterMap (fun op =>
      match op.resource with
      | some s => if s == "" then none else some s
      | none => none)
    if resources.isEmpty then false
    else
      let most_common_count := (resources.map (fun s => resources.count s)).foldl max 0
      decide ((most_common_count : ℚ) ≥ (10 : ℚ) * 0.7)

/-- DriftDetector.warning_accumulation (anchor.py lines 220-229),
window 10, threshold 5. -/
def warning_accumulation (history : List OperationRecord) : Bool :=
  if history.length < 10 then false
  else decide (5 ≤ ((lastN 10 history).map (fun op => op.warnings)).sum)

/-- One DRIFT_PATTERNS entry (anchor.py lines 232-263). -/
structure DriftInfo where
  name : String
  description : String
  severity : String
deriving DecidableEq, Repr

/-- SmartAnchor._detect_drift (anchor.py lines 604-619): try the patterns
in declaration order and return the first hit.  The detectors above are
total, so the source's per-pattern exception swallowing has no residue. -/
def detectDrift (history : List OperationRecord) : Option DriftInfo :=
  if escalating_access history then
    some ⟨"escalating_access", "Risk levels gradually increasing", "checkpoint"⟩
  else if external_drift history then
    some ⟨"external_drift", "External operations increasing", "reduce_budget"⟩
  else if speed_drift history then
    some ⟨"speed_drift", "Operating faster than human can track", "slow_down"⟩
  else if repetition_anomaly history then
    some ⟨"repetition_anomaly", "Same resource accessed repeatedly", "checkpoint"⟩
  else if warning_accumulation history then
    some ⟨"warning_accumulation", "Too many advisory warnings", "checkpoint"⟩
  else none

/-- SmartAnchor (anchor.py lines 270-307): state, budget size, bounded
history deque, tunable params.  Violation callbacks are omitted: nothing
in the core ever invokes them. -/
structure SmartAnchor where
  state : AnchorState
  budget_size : ℚ
  history_size : ℕ
  history : List OperationRecord
  params : AnchorParams

/-- SmartAnchor.__init__ (anchor.py lines 292-307); `now` stands for the
construction-time datetime.now(). -/
def mkAnchor (initial_trust budget_size : ℚ) (history_size : ℕ) (now : ℚ) : SmartAnchor :=
  { state :=
      { risk_budget := budget_size, trust_score := initial_trust,
        last_checkpoint := now, last_human_interaction := now,
        consecutive_clean_ops := 0, total_ops_since_checkpoint := 0,
        warnings_since_checkpoint := 0 }
    budget_size := budget_size
    history_size := history_size
    history := []
    params := defaultParams }

/-- SmartAnchor._assess_risk (anchor.py lines 561-589).  An explicit
`risk_level` context value is returned verbatim — no case normalization. -/
def assessRisk (operation : String) (ctx : Context) : String :=
  match ctx.risk_level with
  | some r => r
  | none =>
    if ctx.is_external then "HIGH"
    else if ctx.involves_phi then "HIGH"
    else if ctx.is_destructive then "MEDIUM"
    else if ctx.is_write then "LOW"
    else
      let op_lower := strLower operation
      if containsAny op_lower ["delete", "remove", "drop", "truncate"] then "MEDIUM"
      else if containsAny op_lower ["write", "update", "create", "insert"] then "LOW"
      else if containsAny op_lower ["send", "post", "email", "publish"] then "HIGH"
      else if containsAny op_lower ["execute", "run", "eval"] then "MEDIUM"
      else "SAFE"

/-- SmartAnchor._hash_context (anchor.py lines 621-630). -/
def hashContext (ctx : Context) : String :=
  String.intercalate ":"
    [ctx.operation.getD "", ctx.path.getD "", ctx.resource.getD "",
     if ctx.is_external then "True" else "False"]

/-- Steps 6-7 of the pre-operation protocol (anchor.py lines 372-392):
the stale-human check followed by the allow result.  Split out of
`preOperation` purely to avoid duplicating it per drift branch. -/
def preOperationFinish (a : SmartAnchor) (risk : String) (budget_after : ℚ)
    (now : ℚ) (warnings : List String) : PreCheckResult :=
  let time_since_human := now - a.state.last_human_interaction
  if time_since_human > a.params.max_minutes_without_human * 60 ∧
      (risk == "MEDIUM" || risk == "HIGH") = true then
    { can_proceed := false
      reason := "No human interaction for " ++ ratStr (time_since_human / 60) ++
        " minutes. Checkpoint for " ++ risk ++ " operations."
      risk_level := risk
      budget_after := a.state.risk_budget
      trust_level := trustLevelName a.state.trust_score }
  else
    { can_proceed := true
      reason := "Proceed"
      risk_level := risk
      budget_after := budget_after
      trust_level := trustLevelName a.state.trust_score
      warnings := warnings }

/-- SmartAnchor.pre_operation (anchor.py lines 313-392).  The method never
assigns to self, so the anchor is returned unchanged in every branch;
`none` models the KeyError at `RISK_COSTS[risk]` for an unknown level. -/
def preOperation (a : SmartAnchor) (operation : String) (ctx : Context) (now : ℚ) :
    Option (PreCheckResult × SmartAnchor) :=
  let risk := assessRisk operation ctx
  match dictGet RISK_COSTS risk with
  | none => none
  | some cost =>
    match dictGet RISK_TRUST_THRESHOLDS risk with
    | none => none
    | some min_trust =>
      if risk == "CRITICAL" then
        some ({ can_proceed := false
                reason := "Critical operation requires human confirmation"
                risk_level := risk
                budget_after := a.state.risk_budget
                trust_level := trustLevelName a.state.trust_score }, a)
      else if a.state.trust_score < min_trust then
        some ({ can_proceed := false
                reason := "Trust (" ++ ratStr a.state.trust_score ++
                  ") below threshold (" ++ ratStr min_trust ++ ") for " ++
                  risk ++ " operations"
                risk_level := risk
                budget_after := a.state.risk_budget
                trust_level := trustLevelName a.state.trust_score }, a)
      else
        let budget_after := a.state.risk_budget - cost
        if budget_after < 0 then
          some ({ can_proceed := false
                  reason := "Risk budget depleted (" ++ ratStr a.state.risk_budget ++
                    " remaining, need " ++ ratStr cost ++ "). Checkpoint required."
                  risk_level := risk
                  budget_after := a.state.risk_budget
                  trust_level := trustLevelName a.state.trust_score }, a)
        else
          match detectDrift a.history with
          | some d =>
            if d.severity == "checkpoint" then
              some ({ can_proceed := false
                      reason := "Drift pattern detected: " ++ d.name ++ " — " ++ d.description
                      risk_level := risk
                      budget_after := a.state.risk_budget
                      trust_level := trustLevelName a.state.trust_score }, a)
            else
              some (preOperationFinish a risk budget_after now
                ["Drift warning: " ++ d.name], a)
          | none => some (preOperationFinish a risk budget_after now [], a)

/-- SmartAnchor.post_operation (anchor.py lines 394-472).  `none` models
the KeyError at `RISK_COSTS[risk]`, raised before any state mutation.
The single if/elif/else of the source mutates four quantities; here each
is computed with the same guard conditions. -/
def postOperation (a : SmartAnchor) (operation : String) (ctx : Context)
    (advisory_warnings : ℕ) (constraint_violation : Bool) (now : ℚ) :
    Option (PostCheckResult × SmartAnchor) :=
  let risk := assessRisk operation ctx
  match dictGet RISK_COSTS risk with
  | none => none
  | some cost =>
    let budget1 := max 0 (a.state.risk_budget - cost)
    let total1 := a.state.total_ops_since_checkpoint + 1
    let record : OperationRecord :=
      { operation := operation
        risk := risk
        timestamp := now
        context_hash := hashContext ctx
        resource := pyOrStr ctx.path (pyOrStr ctx.resource ctx.url)
        external := ctx.is_external
        warnings := advisory_warnings }
    let history1 := dequeAppend a.history_size a.history record
    let trust_delta : ℚ :=
      if constraint_violation then -(a.params.trust_penalty_violation)
      else if 0 < advisory_warnings then
        -(a.params.trust_penalty_warning * (advisory_warnings : ℚ))
      else a.params.trust_boost_clean +
        (if 10 ≤ a.state.consecutive_clean_ops + 1 then a.params.trust_boost_streak else 0)
    let clean1 : ℕ :=
      if constraint_violation then 0
      else if 0 < advisory_warnings then 0
      else a.state.consecutive_clean_ops + 1
    let warn1 : ℕ :=
      if constraint_violation then a.state.warnings_since_checkpoint
      else if 0 < advisory_warnings then a.state.warnings_since_checkpoint + advisory_warnings
      else a.state.warnings_since_checkpoint
    let recs0 : List String :=
      if constraint_violation then ["Constraint violation detected — recommend checkpoint"]
      else []
    let trust1 := max 0 (min 1 (a.state.trust_score + trust_delta))
    let drift := detectDrift history1
    let budget2 :=
      match drift with
      | some d => if d.severity == "reduce_budget" then max 0 (budget1 - 0.2) else budget1
      | none => budget1
    let recs1 := recs0 ++
      (match drift with
       | some d =>
         if d.severity == "reduce_budget" then ["Budget reduced due to " ++ d.name]
         else if d.severity == "slow_down" then ["Consider slowing down: " ++ d.description]
         else []
       | none => [])
    let recs2 := recs1 ++
      (if budget2 < 0.3 then ["Low budget (" ++ ratStr budget2 ++ ") — checkpoint soon"] else [])
    some ({ valid := !constraint_violation
            trust_delta := trust_delta
            budget_remaining := budget2
            drift_detected := drift.map (fun d => d.name)
            recommendations := recs2 },
          { a with
            history := history1
            state :=
              { a.state with
                risk_budget := budget2
                trust_score := trust1
                consecutive_clean_ops := clean1
                total_ops_since_checkpoint := total1
                warnings_since_checkpoint := warn1 } })

/-- SmartAnchor.human_interacted (anchor.py lines 478-481). -/
def humanInteracted (a : SmartAnchor) (now : ℚ) : SmartAnchor :=
  { a with state :=
      { a.state with
        last_human_interaction := now
        trust_score := min 1 (a.state.trust_score + a.params.trust_boost_interaction) } }

/-- SmartAnchor.human_checkpoint (anchor.py lines 483-490): full budget
reset, +trust_boost_checkpoint clamped above, timers and counters reset;
consecutive_clean_ops is not touched. -/
def humanCheckpoint (a : SmartAnchor) (now : ℚ) : SmartAnchor :=
  { a with state :=
      { a.state with
        risk_budget := a.budget_size
        trust_score := min 1 (a.state.trust_score + a.params.trust_boost_checkpoint)
        last_checkpoint := now
        last_human_interaction := now
        total_ops_since_checkpoint := 0
        warnings_since_checkpoint := 0 } }

/-- SmartAnchor.human_corrected (anchor.py lines 492-509). -/
def humanCorrected (a : SmartAnchor) (now : ℚ) : SmartAnchor :=
  let a1 := humanInteracted a now
  let recent_corrections :=
    ((lastN 10 a1.history).filter (fun op => op.operation == "_correction")).length
  let a2 :=
    if 3 < recent_corrections then
      { a1 with state :=
          { a1.state with trust_score := max 0 (a1.state.trust_score - 0.05) } }
    else a1
  let correction_record : OperationRecord :=
    { operation := "_correction", risk := "SAFE", timestamp := now,
      context_hash := "correction" }
  { a2 with history := dequeAppend a2.history_size a2.history correction_record }

/-- An anchor-mutating call, for stating sequencing invariants over the
four state-changing entry points. -/
inductive AnchorAction where
  | post (operation : String) (ctx : Context) (advisory_warnings : ℕ)
      (constraint_violation : Bool) (now : ℚ)
  | interacted (now : ℚ)
  | checkpoint (now : ℚ)
  | corrected (now : ℚ)

/-- Apply one call to the anchor.  For `post`, a KeyError on an unknown
risk level is raised before the first state mutation (anchor.py line 407),
so the anchor is unchanged in that case. -/
def runAction (a : SmartAnchor) (act : AnchorAction) : SmartAnchor :=
  match act with
  | .post operation ctx w v now =>
    match postOperation a operation ctx w v now with
    | some (_, a2) => a2
    | none => a
  | .interacted now => humanInteracted a now
  | .checkpoint now => humanCheckpoint a now
  | .corrected now => humanCorrected a now

/-- Apply a finite sequence of calls. -/
def runActions (a : SmartAnchor) (acts : List AnchorAction) : SmartAnchor :=
  acts.foldl runAction a

/-! ## guard.py -/

/-- GuardMode (guard.py lines 26-31). -/
inductive GuardMode where
  | DISABLED
  | SHADOW
  | SOFT
  | ENFORCE
deriving DecidableEq, Repr

/-- Position of a mode in the order Disabled < Shadow < Soft < Enforce. -/
def modeIdx : GuardMode → ℕ
  | .DISABLED => 0
  | .SHADOW => 1
  | .SOFT => 2
  | .ENFORCE => 3

/-- EquilibriumGuard._should_actually_block (guard.py lines 402-415). -/
def shouldActuallyBlock (mode : GuardMode) (would_block : Bool) (risk_level : String) : Bool :=
  if !would_block then false
  else
    match mode with
    | .DISABLED => false
    | .SHADOW => false
    | .SOFT => risk_level == "HIGH" || risk_level == "CRITICAL"
    | .ENFORCE => true

/-! ## Helper lemmas -/

theorem listPrefixOf_nil (pat : List Char) (h : listPrefixOf pat [] = true) : pat = [] := by
  cases pat with
  | nil => rfl
  | cons a as => simp [listPrefixOf] at h

theorem listPrefixOf_nil_left (l : List Char) : listPrefixOf [] l = true := by
  cases l <;> rfl

theorem listPrefixOf_append (pat s t : List Char) (h : listPrefixOf pat s = true) :
    listPrefixOf pat (s ++ t) = true := by
  induction pat generalizing s with
  | nil => exact listPrefixOf_nil_left _
  | cons a as ih =>
    cases s with
    | nil => simp [listPrefixOf] at h
    | cons b bs =>
      simp only [listPrefixOf, Bool.and_eq_true, beq_iff_eq] at h
      simp only [List.cons_append, listPrefixOf, Bool.and_eq_true, beq_iff_eq]
      exact ⟨h.1, ih bs h.2⟩

theorem listInfixOf_nil_left (l : List Char) : listInfixOf [] l = true := by
  induction l with
  | nil => rfl
  | cons a as ih => simp [listInfixOf, ih, listPrefixOf_nil_left]

theorem listInfixOf_append (pat s t : List Char) (h : listInfixOf pat s = true) :
    listInfixOf pat (s ++ t) = true := by
  induction s with
  | nil =>
    have : pat = [] := listPrefixOf_nil pat h
    subst this
    exact listInfixOf_nil_left _
  | cons a as ih =>
    simp only [listInfixOf, Bool.or_eq_true] at h
    rcases h with h | h
    · simp only [List.cons_append, listInfixOf, Bool.or_eq_true]
      exact Or.inl (listPrefixOf_append _ _ _ h)
    · simp only [List.cons_append, listInfixOf, Bool.or_eq_true]
      exact Or.inr (ih h)

theorem containsSub_append (s t pat : String) (h : containsSub s pat = true) :
    containsSub (s ++ t) pat = true := by
  simpa only [containsSub, String.data_append] using listInfixOf_append pat.data s.data t.data h

theorem assocSet_assocSet {α : Type} (l : List (String × α)) (k : String) (v1 v2 : α) :
    assocSet (assocSet l k v1) k v2 = assocSet l k v2 := by
  induction l with
  | nil => simp [assocSet]
  | cons p rest ih =>
    by_cases h : p.1 == k
    · simp [assocSet, h]
    · simp only [assocSet]
      rw [if_neg (by simpa using h)]
      simp only [assocSet]
      rw [if_neg (by simpa using h), if_neg (by simpa using h), ih]

theorem can_execute_eq_bool (v : ValidationResult) :
    v.can_execute =
      (v.mandatory_failures.isEmpty &&
        (v.required_failures.isEmpty || pyTruthyOptStr v.override_justification)) := by
  cases h1 : v.mandatory_failures.isEmpty <;>
    cases h2 : v.required_failures.isEmpty <;>
    cases h3 : pyTruthyOptStr v.override_justification <;>
      simp [ValidationResult.can_execute, h1, h2, h3]

/-! ## Claim theorems -/

/-- C1 (counterexample): the claim reads "an override justification is
present", i.e. the optional field is set.  With a single unsatisfied
Required result and an empty-string justification the field is set, yet
`can_execute` is false (Python's `not ""` is true), so the claimed
equivalence fails at this input. -/
theorem can_execute_empty_justification_cex :
    ValidationResult.can_execute
        { operation := "op",
          results := [{ constraint_id := "c", satisfied := false,
                        severity := .REQUIRED, message := some "m", evaluated_at := 0 }],
          override_justification := some "" } = false ∧
    can_execute_spec
        { operation := "op",
          results := [{ constraint_id := "c", satisfied := false,
                        severity := .REQUIRED, message := some "m", evaluated_at := 0 }],
          override_justification := some "" } = true := by
  constructor <;> rfl

/-- C1 (amended): can_execute is true iff there is no unsatisfied
Mandatory result, and either there is no unsatisfied Required result or a
NON-EMPTY override justification is present (an empty-string justification
counts as absent). -/
theorem can_execute_characterization (v : ValidationResult) :
    v.can_execute = true ↔
      ((¬ ∃ r ∈ v.results, r.satisfied = false ∧ r.severity = .MANDATORY) ∧
       ((¬ ∃ r ∈ v.results, r.satisfied = false ∧ r.severity = .REQUIRED) ∨
        ∃ s, v.override_justification = some s ∧ s ≠ "")) := by
  rw [can_execute_eq_bool]
  rcases hoj : v.override_justification with _ | s <;>
    simp [ValidationResult.mandatory_failures, ValidationResult.required_failures,
      pyTruthyOptStr, List.isEmpty_iff, List.filter_eq_nil_iff, hoj]

/-- C9: constraint evaluation is total; a predicate exception with message
`e` becomes a not-satisfied result of the constraint's severity whose
message is "Constraint evaluation error: " followed by `e` (and hence
contains "evaluation error" followed by the exception's message). -/
theorem evaluate_captures_exception (c : Constraint) (ctx : Context) (now : ℚ)
    (e : String) (h : c.check ctx = .error e) :
    c.evaluate ctx now =
      { constraint_id := c.id, satisfied := false, severity := c.severity,
        message := some ("Constraint evaluation error: " ++ e), evaluated_at := now } ∧
    containsSub ("Constraint evaluation error: " ++ e) "evaluation error" = true := by
  constructor
  · simp [Constraint.evaluate, h]
  · exact containsSub_append "Constraint evaluation error: " e "evaluation error" (by decide)

/-- A constraint whose predicate always raises, for the C9 witness. -/
def throwingConstraint : Constraint :=
  { id := "t1", name := "thrower", description := "always raises",
    check := fun _ => .error "boom", severity := .MANDATORY }

/-- C9 witness: evaluating the always-raising constraint at a concrete
context yields the captured-error result. -/
theorem evaluate_captures_exception_witness :
    throwingConstraint.evaluate {} 0 =
      { constraint_id := "t1", satisfied := false, severity := .MANDATORY,
        message := some ("Constraint evaluation error: " ++ "boom"), evaluated_at := 0 } ∧
    containsSub ("Constraint evaluation error: " ++ "boom") "evaluation error" = true :=
  evaluate_captures_exception throwingConstraint {} 0 "boom" rfl

/-- C5: with the default checkpoint boost (0.1), human_checkpoint restores
the budget to exactly budget_size, lifts trust by 0.1 clamped at 1, zeroes
the since-checkpoint counters, and leaves consecutive_clean_ops alone. -/
theorem human_checkpoint_resets (a : SmartAnchor) (now : ℚ)
    (h : a.params.trust_boost_checkpoint = 0.1) :
    (humanCheckpoint a now).state.risk_budget = a.budget_size ∧
    (humanCheckpoint a now).state.trust_score = min 1 (a.state.trust_score + 0.1) ∧
    (humanCheckpoint a now).state.total_ops_since_checkpoint = 0 ∧
    (humanCheckpoint a now).state.warnings_since_checkpoint = 0 ∧
    (humanCheckpoint a now).state.consecutive_clean_ops = a.state.consecutive_clean_ops := by
  simp [humanCheckpoint, h]

/-- A fresh default anchor (trust 0.7, budget 1.0, history 100) built at
time 0, used by several witnesses and the budget scenario. -/
def anchor0 : SmartAnchor := mkAnchor 0.7 1 100 0

/-- C5 witness: the checkpoint equations instantiated on the fresh
default anchor. -/
theorem human_checkpoint_resets_witness :
    (humanCheckpoint anchor0 0).state.risk_budget = anchor0.budget_size ∧
    (humanCheckpoint anchor0 0).state.trust_score = min 1 (anchor0.state.trust_score + 0.1) ∧
    (humanCheckpoint anchor0 0).state.total_ops_since_checkpoint = 0 ∧
    (humanCheckpoint anchor0 0).state.warnings_since_checkpoint = 0 ∧
    (humanCheckpoint anchor0 0).state.consecutive_clean_ops =
      anchor0.state.consecutive_clean_ops :=
  human_checkpoint_resets anchor0 0 rfl

/-- The five valid risk-level names, i.e. the keys of RISK_COSTS. -/
def riskNames : List String := ["SAFE", "LOW", "MEDIUM", "HIGH", "CRITICAL"]

theorem riskLookup_of_mem (s : String) (hmem : s ∈ riskNames) :
    ∃ c t, dictGet RISK_COSTS s = some c ∧ dictGet RISK_TRUST_THRESHOLDS s = some t := by
  simp only [riskNames, List.mem_cons, List.not_mem_nil, or_false] at hmem
  rcases hmem with h | h | h | h | h <;> subst h <;> exact ⟨_, _, rfl, rfl⟩

theorem dictGet_RISK_COSTS_eq_none (s : String) (hmem : s ∉ riskNames) :
    dictGet RISK_COSTS s = none := by
  simp only [riskNames, List.mem_cons, List.not_mem_nil, or_false, not_or] at hmem
  obtain ⟨h1, h2, h3, h4, h5⟩ := hmem
  have e1 : (("SAFE" : String) == s) = false := beq_eq_false_iff_ne.mpr fun h => h1 h.symm
  have e2 : (("LOW" : String) == s) = false := beq_eq_false_iff_ne.mpr fun h => h2 h.symm
  have e3 : (("MEDIUM" : String) == s) = false := beq_eq_false_iff_ne.mpr fun h => h3 h.symm
  have e4 : (("HIGH" : String) == s) = false := beq_eq_false_iff_ne.mpr fun h => h4 h.symm
  have e5 : (("CRITICAL" : String) == s) = false := beq_eq_false_iff_ne.mpr fun h => h5 h.symm
  simp [dictGet, RISK_COSTS, e1, e2, e3, e4, e5]

/-- Every branch of pre_operation returns the anchor unchanged, with the
assessed risk in the result, once the two risk-table lookups succeed. -/
theorem preOperation_core_some (a : SmartAnchor) (operation : String) (ctx : Context)
    (now : ℚ) (s : String) (cost min_trust : ℚ)
    (hr : assessRisk operation ctx = s)
    (hc : dictGet RISK_COSTS s = some cost)
    (ht : dictGet RISK_TRUST_THRESHOLDS s = some min_trust) :
    ∃ r, preOperation a operation ctx now = some (r, a) ∧ r.risk_level = s := by
  unfold preOperation preOperationFinish
  simp only [hr, hc, ht]
  rcases hdrift : detectDrift a.history with _ | d <;> dsimp only <;>
    split_ifs <;> exact ⟨_, rfl, rfl⟩

theorem preOperation_some_of_valid (a : SmartAnchor) (operation : String) (ctx : Context)
    (now : ℚ) (hmem : assessRisk operation ctx ∈ riskNames) :
    ∃ r, preOperation a operation ctx now = some (r, a) ∧
      r.risk_level = assessRisk operation ctx := by
  obtain ⟨c, t, hc, ht⟩ := riskLookup_of_mem _ hmem
  exact preOperation_core_some a operation ctx now _ c t rfl hc ht

theorem preOperation_none_of_invalid (a : SmartAnchor) (operation : String) (ctx : Context)
    (now : ℚ) (h : dictGet RISK_COSTS (assessRisk operation ctx) = none) :
    preOperation a operation ctx now = none := by
  unfold preOperation
  simp only [h]

/-- C2: for any anchor state and any context carrying risk_level
"CRITICAL", pre_operation denies (never allows), leaves the anchor
untouched, and the reason contains "critical" case-insensitively. -/
theorem critical_never_admissible (a : SmartAnchor) (operation : String) (ctx : Context)
    (now : ℚ) (h : ctx.risk_level = some "CRITICAL") :
    ∃ r, preOperation a operation ctx now = some (r, a) ∧
      r.can_proceed = false ∧ containsSub (strLower r.reason) "critical" = true := by
  have hr : assessRisk operation ctx = "CRITICAL" := by simp [assessRisk, h]
  have hcrit : containsSub (strLower "Critical operation requires human confirmation")
      "critical" = true := by decide
  refine ⟨{ can_proceed := false
            reason := "Critical operation requires human confirmation"
            risk_level := "CRITICAL"
            budget_after := a.state.risk_budget
            trust_level := trustLevelName a.state.trust_score }, ?_, rfl, hcrit⟩
  unfold preOperation
  rw [hr]
  rfl

/-- A context whose explicit risk level is CRITICAL. -/
def ctxCRIT : Context := { risk_level := some "CRITICAL" }

/-- C2 witness: the critical denial on the fresh default anchor. -/
theorem critical_never_admissible_witness :
    ∃ r, preOperation anchor0 "deploy" ctxCRIT 0 = some (r, anchor0) ∧
      r.can_proceed = false ∧ containsSub (strLower r.reason) "critical" = true :=
  critical_never_admissible anchor0 "deploy" ctxCRIT 0 rfl

/-- C3 (counterexample): the lower-case spelling "high" is NOT accepted:
_assess_risk returns the context value verbatim and `RISK_COSTS[risk]`
raises KeyError (modelled as `none`), so pre_operation does not complete,
contradicting the claimed case-insensitivity. -/
theorem risk_level_lowercase_cex :
    preOperation anchor0 "read" { risk_level := some "high" } 0 = none := by
  apply preOperation_none_of_invalid
  decide

/-- C3 (amended): the risk_level context key is case-SENSITIVE.  A value
that is one of the five upper-case names is used as that risk level and
pre_operation completes without raising; any other spelling (including
lower- or mixed-case) makes pre_operation raise KeyError (`none`). -/
theorem risk_level_case_sensitive (a : SmartAnchor) (operation : String) (ctx : Context)
    (now : ℚ) (s : String) (h : ctx.risk_level = some s) :
    (s ∈ riskNames →
      ∃ r, preOperation a operation ctx now = some (r, a) ∧ r.risk_level = s) ∧
    (s ∉ riskNames → preOperation a operation ctx now = none) := by
  have hr : assessRisk operation ctx = s := by simp [assessRisk, h]
  constructor
  · intro hmem
    obtain ⟨c, t, hc, ht⟩ := riskLookup_of_mem s hmem
    exact preOperation_core_some a operation ctx now s c t hr hc ht
  · intro hmem
    apply preOperation_none_of_invalid
    rw [hr]
    exact dictGet_RISK_COSTS_eq_none s hmem

/-- A context whose explicit risk level is upper-case HIGH. -/
def ctxHIGH : Context := { risk_level := some "HIGH" }

/-- C3 witness: the amended statement instantiated at risk_level "HIGH"
on the fresh default anchor. -/
theorem risk_level_case_sensitive_witness :
    (("HIGH" : String) ∈ riskNames →
      ∃ r, preOperation anchor0 "x" ctxHIGH 0 = some (r, anchor0) ∧ r.risk_level = "HIGH") ∧
    (("HIGH" : String) ∉ riskNames → preOperation anchor0 "x" ctxHIGH 0 = none) :=
  risk_level_case_sensitive anchor0 "x" ctxHIGH 0 "HIGH" rfl

/-- C10: pre_operation is pure with respect to the anchor: whenever the
assessed risk level is one of the five valid names it returns a result
together with the anchor itself — state (budget, trust, counters, timers)
and operation history all unchanged; only post_operation debits budget or
appends history. -/
theorem pre_operation_pure (a : SmartAnchor) (operation : String) (ctx : Context)
    (now : ℚ) (hmem : assessRisk operation ctx ∈ riskNames) :
    ∃ r, preOperation a operation ctx now = some (r, a) := by
  obtain ⟨r, hsome, _⟩ := preOperation_some_of_valid a operation ctx now hmem
  exact ⟨r, hsome⟩

/-- C10 witness: a read-like operation with an empty context (inferred
SAFE) on the fresh default anchor. -/
theorem pre_operation_pure_witness :
    ∃ r, preOperation anchor0 "read_file" {} 0 = some (r, anchor0) :=
  pre_operation_pure anchor0 "read_file" {} 0 (by decide)

/-- C6: the mode policy is monotone along Disabled ≤ Shadow ≤ Soft ≤
Enforce, Disabled and Shadow never block, Soft blocks exactly on
would_block at HIGH/CRITICAL, Enforce blocks exactly on would_block. -/
theorem mode_policy_monotone (would_block : Bool) (risk_level : String)
    (m1 m2 : GuardMode) (h : modeIdx m1 ≤ modeIdx m2) :
    (shouldActuallyBlock m1 would_block risk_level = true →
      shouldActuallyBlock m2 would_block risk_level = true) ∧
    shouldActuallyBlock .DISABLED would_block risk_level = false ∧
    shouldActuallyBlock .SHADOW would_block risk_level = false ∧
    shouldActuallyBlock .SOFT would_block risk_level =
      (would_block && (risk_level == "HIGH" || risk_level == "CRITICAL")) ∧
    shouldActuallyBlock .ENFORCE would_block risk_level = would_block := by
  cases m1 <;> cases m2 <;> cases would_block <;>
    simp_all [shouldActuallyBlock, modeIdx]

/-- C6 witness: Shadow ≤ Enforce at would_block = true, risk HIGH. -/
theorem mode_policy_monotone_witness :
    (shouldActuallyBlock .SHADOW true "HIGH" = true →
      shouldActuallyBlock .ENFORCE true "HIGH" = true) ∧
    shouldActuallyBlock .DISABLED true "HIGH" = false ∧
    shouldActuallyBlock .SHADOW true "HIGH" = false ∧
    shouldActuallyBlock .SOFT true "HIGH" =
      (true && (("HIGH" : String) == "HIGH" || ("HIGH" : String) == "CRITICAL")) ∧
    shouldActuallyBlock .ENFORCE true "HIGH" = true :=
  mode_policy_monotone true "HIGH" .SHADOW .ENFORCE (by decide)

/-- A constraint first registered scoped to operation "a" (C4). -/
def cFirst : Constraint :=
  { id := "r1", name := "first", description := "always passes",
    check := fun _ => .ok true, severity := .REQUIRED }

/-- A replacement constraint with the same id, registered globally (C4). -/
def cSecond : Constraint :=
  { id := "r1", name := "second", description := "always fails",
    check := fun _ => .ok false, severity := .MANDATORY, error_message := "blocked" }

/-- Validator after register(cFirst, ["a"]) then register(cSecond, None). -/
def vBoth : ConstraintValidator :=
  (emptyValidator.register cFirst (some ["a"])).register cSecond none

/-- Validator after register(cSecond, None) alone. -/
def vOnly : ConstraintValidator := emptyValidator.register cSecond none

/-- C4 (counterexample): re-registering a previously scoped id globally
does NOT behave like registering it alone: the stale scope entry for "a"
keeps the id out of the global set, so on operation "b" the combined
validator applies no constraint (can_execute true) while the
cSecond-only validator applies the always-failing mandatory constraint
(can_execute false) — the ValidationResults differ. -/
theorem register_scoped_then_global_cex :
    (vBoth.validate "b" {} none 0).1.can_execute = true ∧
    (vOnly.validate "b" {} none 0).1.can_execute = false ∧
    (vBoth.validate "b" {} none 0).1 ≠ (vOnly.validate "b" {} none 0).1 := by
  refine ⟨by decide, by decide, by decide⟩

/-- C4 (amended): last-write-wins holds whenever the FIRST registration
was global (operations absent or empty): then register(c1); register(c2,
ops2) makes every validate call agree with register(c2, ops2) alone, on
any base validator.  (When c1 was scoped, its scope entries survive: c2
applies on the union of the scopes and never becomes global.) -/
theorem register_last_write_wins_global_first (cv : ConstraintValidator)
    (c1 c2 : Constraint) (ops1 ops2 : Option (List String)) (operation : String)
    (ctx : Context) (oj : Option String) (now : ℚ)
    (hid : c1.id = c2.id) (hops : (ops1.getD []).isEmpty = true) :
    ((cv.register c1 ops1).register c2 ops2).validate operation ctx oj now =
      (cv.register c2 ops2).validate operation ctx oj now := by
  have h1 : cv.register c1 ops1 = { cv with constraints := assocSet cv.constraints c1.id c1 } := by
    unfold ConstraintValidator.register
    simp [hops]
  have h2 : ({ cv with constraints := assocSet cv.constraints c1.id c1 } :
      ConstraintValidator).register c2 ops2 = cv.register c2 ops2 := by
    unfold ConstraintValidator.register
    cases hb : (ops2.getD []).isEmpty <;> simp [hb, hid, assocSet_assocSet]
  rw [h1, h2]

/-- C4 witness: the amended statement at a concrete pair of registrations
(first global, second scoped to "a") evaluated at operation "a". -/
theorem register_last_write_wins_global_first_witness :
    ((emptyValidator.register cFirst none).register cSecond (some ["a"])).validate
        "a" {} none 0 =
      (emptyValidator.register cSecond (some ["a"])).validate "a" {} none 0 :=
  register_last_write_wins_global_first emptyValidator cFirst cSecond none (some ["a"])
    "a" {} none 0 rfl rfl

/-- Whenever post_operation succeeds, the returned anchor keeps the same
params and a trust score clamped into [0, 1]. -/
theorem postOperation_result (a : SmartAnchor) (operation : String) (ctx : Context)
    (w : ℕ) (v : Bool) (now : ℚ) (p : PostCheckResult × SmartAnchor)
    (h : postOperation a operation ctx w v now = some p) :
    p.2.params = a.params ∧ 0 ≤ p.2.state.trust_score ∧ p.2.state.trust_score ≤ 1 := by
  unfold postOperation at h
  cases hd : dictGet RISK_COSTS (assessRisk operation ctx) with
  | none =>
    dsimp only at h
    rw [hd] at h
    exact absurd h (by simp)
  | some cost =>
    dsimp only at h
    rw [hd] at h
    dsimp only at h
    rw [Option.some.injEq] at h
    subst h
    exact ⟨rfl, le_max_left 0 _, max_le zero_le_one (min_le_left 1 _)⟩

/-- One anchor call preserves the params and keeps trust in [0, 1],
provided the two un-clamped-below boosts are nonnegative. -/
theorem runAction_bounds (a : SmartAnchor) (act : AnchorAction)
    (h0 : 0 ≤ a.state.trust_score) (h1 : a.state.trust_score ≤ 1)
    (hbi : 0 ≤ a.params.trust_boost_interaction)
    (hbc : 0 ≤ a.params.trust_boost_checkpoint) :
    (runAction a act).params = a.params ∧
    0 ≤ (runAction a act).state.trust_score ∧
    (runAction a act).state.trust_score ≤ 1 := by
  cases act with
  | post operation ctx w v now =>
    simp only [runAction]
    cases hpo : postOperation a operation ctx w v now with
    | none => exact ⟨rfl, h0, h1⟩
    | some p =>
      obtain ⟨hp, hl, hu⟩ := postOperation_result a operation ctx w v now p hpo
      cases p with
      | mk res a2 => exact ⟨hp, hl, hu⟩
  | interacted now =>
    simp only [runAction]
    unfold humanInteracted
    exact ⟨rfl, le_min zero_le_one (add_nonneg h0 hbi), min_le_left _ _⟩
  | checkpoint now =>
    simp only [runAction]
    unfold humanCheckpoint
    exact ⟨rfl, le_min zero_le_one (add_nonneg h0 hbc), min_le_left _ _⟩
  | corrected now =>
    simp only [runAction]
    unfold humanCorrected humanInteracted
    dsimp only
    split_ifs with hcor
    · refine ⟨rfl, le_max_left 0 _, max_le zero_le_one ?_⟩
      have hm := min_le_left 1 (a.state.trust_score + a.params.trust_boost_interaction)
      linarith
    · exact ⟨rfl, le_min zero_le_one (add_nonneg h0 hbi), min_le_left _ _⟩

/-- C7: starting from trust in [0, 1] (and nonnegative interaction and
checkpoint boosts, as in the default params), any finite sequence of
post_operation / human_interacted / human_checkpoint / human_corrected
calls keeps the trust score in [0, 1]. -/
theorem trust_score_in_unit_interval (acts : List AnchorAction) (a : SmartAnchor)
    (h0 : 0 ≤ a.state.trust_score) (h1 : a.state.trust_score ≤ 1)
    (hbi : 0 ≤ a.params.trust_boost_interaction)
    (hbc : 0 ≤ a.params.trust_boost_checkpoint) :
    0 ≤ (runActions a acts).state.trust_score ∧
    (runActions a acts).state.trust_score ≤ 1 := by
  induction acts generalizing a with
  | nil => exact ⟨h0, h1⟩
  | cons act rest ih =>
    obtain ⟨hp, hl, hu⟩ := runAction_bounds a act h0 h1 hbi hbc
    have hbi2 : 0 ≤ (runAction a act).params.trust_boost_interaction := by rw [hp]; exact hbi
    have hbc2 : 0 ≤ (runAction a act).params.trust_boost_checkpoint := by rw [hp]; exact hbc
    have := ih (runAction a act) hl hu hbi2 hbc2
    simpa [runActions, List.foldl] using this

/-- An anchor with integer-valued trust and boosts, for the C7 witness. -/
def anchorW : SmartAnchor :=
  { state :=
      { risk_budget := 1, trust_score := 0, last_checkpoint := 0,
        last_human_interaction := 0, consecutive_clean_ops := 0,
        total_ops_since_checkpoint := 0, warnings_since_checkpoint := 0 }
    budget_size := 1
    history_size := 100
    history := []
    params := { trust_boost_interaction := 0, trust_boost_checkpoint := 0 } }

/-- C7 witness: the invariant applied to a concrete two-call sequence. -/
theorem trust_score_in_unit_interval_witness :
    0 ≤ (runActions anchorW [AnchorAction.interacted 0,
          AnchorAction.checkpoint 1]).state.trust_score ∧
    (runActions anchorW [AnchorAction.interacted 0,
          AnchorAction.checkpoint 1]).state.trust_score ≤ 1 :=
  trust_score_in_unit_interval [AnchorAction.interacted 0, AnchorAction.checkpoint 1]
    anchorW (by decide) (by decide) (by decide) (by decide)

/-- The OperationRecord appended by each HIGH "send" post_operation in
the budget-exhaustion scenario (at time 0). -/
def sendRecord : OperationRecord :=
  { operation := "send", risk := "HIGH", timestamp := 0,
    context_hash := hashContext ctxHIGH,
    resource := pyOrStr ctxHIGH.path (pyOrStr ctxHIGH.resource ctxHIGH.url),
    external := ctxHIGH.is_external, warnings := 0 }

/-- Anchor after the first post_operation("send", HIGH) on anchor0. -/
def anchorA1 : SmartAnchor :=
  { state :=
      { risk_budget := 3/5, trust_score := 141/200, last_checkpoint := 0,
        last_human_interaction := 0, consecutive_clean_ops := 1,
        total_ops_since_checkpoint := 1, warnings_since_checkpoint := 0 }
    budget_size := 1, history_size := 100, history := [sendRecord]
    params := defaultParams }

/-- Anchor after the second post_operation("send", HIGH). -/
def anchorA2 : SmartAnchor :=
  { state :=
      { risk_budget := 1/5, trust_score := 71/100, last_checkpoint := 0,
        last_human_interaction := 0, consecutive_clean_ops := 2,
        total_ops_since_checkpoint := 2, warnings_since_checkpoint := 0 }
    budget_size := 1, history_size := 100, history := [sendRecord, sendRecord]
    params := defaultParams }

/-- Anchor after the third post_operation("send", HIGH): budget exactly 0. -/
def anchorA3 : SmartAnchor :=
  { state :=
      { risk_budget := 0, trust_score := 143/200, last_checkpoint := 0,
        last_human_interaction := 0, consecutive_clean_ops := 3,
        total_ops_since_checkpoint := 3, warnings_since_checkpoint := 0 }
    budget_size := 1, history_size := 100, history := [sendRecord, sendRecord, sendRecord]
    params := defaultParams }

/-- The denial returned by pre_operation("send", HIGH) once the budget is
exhausted. -/
def preDenied : PreCheckResult :=
  { can_proceed := false
    reason := "Risk budget depleted (" ++ ratStr 0 ++ " remaining, need " ++
      ratStr (0.4 : ℚ) ++ "). Checkpoint required."
    risk_level := "HIGH"
    budget_after := 0
    trust_level := "COLLABORATIVE" }

/-- C8: from the fresh anchor (trust 0.7, budget 1.0), three
post_operation("send", risk_level=HIGH) calls (no warnings, no violation)
drive the budget to exactly 0 (1 − 0.4 − 0.4 = 0.2, then
max(0, 0.2 − 0.4) = 0), and the next pre_operation("send", HIGH) denies
with a reason containing "budget". -/
theorem budget_exhaustion_scenario :
    (postOperation anchor0 "send" ctxHIGH 0 false 0).map Prod.snd = some anchorA1 ∧
    (postOperation anchorA1 "send" ctxHIGH 0 false 0).map Prod.snd = some anchorA2 ∧
    (postOperation anchorA2 "send" ctxHIGH 0 false 0).map Prod.snd = some anchorA3 ∧
    anchorA3.state.risk_budget = 0 ∧
    preOperation anchorA3 "send" ctxHIGH 0 = some (preDenied, anchorA3) ∧
    preDenied.can_proceed = false ∧
    containsSub preDenied.reason "budget" = true := by
  have hbud : containsSub "Risk budget depleted (" "budget" = true := by decide
  have hcost : dictGet RISK_COSTS "HIGH" = some (0.4 : ℚ) := rfl
  have hthr : dictGet RISK_TRUST_THRESHOLDS "HIGH" = some (0.6 : ℚ) := rfl
  have hne : (("HIGH" : String) == "CRITICAL") = false := rfl
  refine ⟨?_, ?_, ?_, rfl, ?_, rfl, ?_⟩
  · norm_num [postOperation, anchor0, mkAnchor, assessRisk, ctxHIGH, hcost,
      dequeAppend, lastN, detectDrift, escalating_access, external_drift, speed_drift,
      repetition_anomaly, warning_accumulation, defaultParams, anchorA1, sendRecord,
      hashContext, pyOrStr]
  · norm_num [postOperation, assessRisk, ctxHIGH, hcost,
      dequeAppend, lastN, detectDrift, escalating_access, external_drift, speed_drift,
      repetition_anomaly, warning_accumulation, defaultParams, anchorA1, anchorA2,
      sendRecord, hashContext, pyOrStr]
  · norm_num [postOperation, assessRisk, ctxHIGH, hcost,
      dequeAppend, lastN, detectDrift, escalating_access, external_drift, speed_drift,
      repetition_anomaly, warning_accumulation, defaultParams, anchorA2, anchorA3,
      sendRecord, hashContext, pyOrStr]
  · norm_num [preOperation, preOperationFinish, assessRisk, ctxHIGH, hcost, hthr, hne,
      detectDrift, escalating_access, external_drift, speed_drift,
      repetition_anomaly, warning_accumulation, lastN, defaultParams, anchorA3, sendRecord,
      trustLevelName, preDenied]
  · exact containsSub_append _ _ _ (containsSub_append _ _ _
      (containsSub_append _ _ _ (containsSub_append _ _ _ hbud)))

end EqGuard
